import Mathlib

/-!
Verification of the event-capture and session-synchronization core of the
IDArling/IDAConnect collaborative reverse-engineering plugin.

The development shallowly embeds the hook/session logic of the two source
files:

* idarling/core/hooks.py — the host-notification adapter: the type-library
  differencing of IDBHooks.local_types_changed, the operand-representation
  classifier IDBHooks.op_type_changed, and the per-function decompiler
  metadata differencing of HexRaysHooks._hxe_callback;
* idaconnect/core/core.py — the session-state manager: the closebase
  teardown handler, the netnode persistence of the (repo, branch, tick)
  identity triple, and the launch-state reconnect/cleanup of
  Core.load_state.

Host (IDA) queries are modelled as pure inputs: the spec treats the whole
host query surface as synchronous, side-effect-free reads.  Effects
(packets sent, files removed, connections opened) are modelled as explicit
action traces in the return values.
-/

set_option linter.unusedSectionVars false

namespace IDArling

/-! ## Type-library differencing: IDBHooks.local_types_changed

A type-library snapshot is a list of slots, one per ordinal, each slot
either null (no type at that ordinal) or a present value.  The concrete
slot payload in the source is the tuple (ordinal, rawType, rawFields,
name); the differencing logic only compares slots for equality, so the
embedding is polymorphic in the payload type. -/

variable {α : Type} [DecidableEq α]

/-- The inner helper differ_local_types of IDBHooks.local_types_changed.
The source loops i over range(max(len(types1), len(types2))) and appends
at most one entry per index:

* i beyond types1: append (i, None, types2[i]) — unconditionally;
* i beyond types2: append (i, types1[i], None) — unconditionally;
* otherwise: append (i, types1[i], types2[i]) when the slots differ.

The loop is rendered as a filterMap over the same index range; the in-range
accesses types1[i] / types2[i] are written with getD, whose default is
never reached on the branch where it is used. -/
def differ_local_types (types1 types2 : List (Option α)) :
    List (Nat × Option α × Option α) :=
  (List.range (max types1.length types2.length)).filterMap fun i =>
    if types1.length ≤ i then some (i, none, types2.getD i none)
    else if types2.length ≤ i then some (i, types1.getD i none, none)
    else if types1.getD i none ≠ types2.getD i none then
      some (i, types1.getD i none, types2.getD i none)
    else none

/-- Modelled from the spec, for comparison with differ_local_types: compare
index-by-index over max(len(P), len(C)); a missing index on one side is
treated as slot value null for that side; collect exactly the indices where
the padded values differ, as (index, oldValue, newValue). -/
def spec_changed_set (P C : List (Option α)) :
    List (Nat × Option α × Option α) :=
  (List.range (max P.length C.length)).filterMap fun i =>
    if P.getD i none ≠ C.getD i none then
      some (i, P.getD i none, C.getD i none)
    else none

/-- Result of one run of the local_types_changed handler: the payload of the
LocalTypesChangedEvent if one was sent, the new previous snapshot
(self.last_local_type), and the value the handler returns to the host. -/
structure LocalTypesResult (α : Type) where
  payload : Option (List (Option α))
  last : List (Option α)
  status : Nat
deriving DecidableEq

/-- IDBHooks.local_types_changed, from the point where the current snapshot
local_types has been gathered from the host.  The source:

* first comparison (self.last_local_type is None): store the snapshot and
  send it whole;
* otherwise diff against the stored snapshot, store the new snapshot, and
  return without sending when the diff is a single entry whose new value is
  None, or when the diff is empty; else send the list of the new values of
  the diff entries ([t[2] for t in diff]). -/
def local_types_changed (last_local_type : Option (List (Option α)))
    (local_types : List (Option α)) : LocalTypesResult α :=
  match last_local_type with
  | none => ⟨some local_types, local_types, 0⟩
  | some last =>
    let diff := differ_local_types last local_types
    if diff.length = 1 ∧ (diff.getD 0 (0, none, none)).2.2 = none then
      ⟨none, local_types, 0⟩
    else if diff.length = 0 then
      ⟨none, local_types, 0⟩
    else
      ⟨some (diff.map fun t => t.2.2), local_types, 0⟩

/-- getD past the end of the list yields the default. -/
theorem getD_of_length_le {l : List (Option α)} {i : Nat}
    (h : l.length ≤ i) : l.getD i none = none := by
  simp [List.getD_eq_getElem?_getD, List.getElem?_eq_none h]

/-- Pointwise description of one iteration of the differ loop: an index is
collected exactly when it lies beyond the shorter snapshot or the padded
slot values differ, and the entry always carries the padded values. -/
theorem differ_entry_eq (types1 types2 : List (Option α)) (i : Nat) :
    (if types1.length ≤ i then some (i, (none : Option α), types2.getD i none)
     else if types2.length ≤ i then some (i, types1.getD i none, (none : Option α))
     else if types1.getD i none ≠ types2.getD i none then
       some (i, types1.getD i none, types2.getD i none)
     else none)
    = (if min types1.length types2.length ≤ i ∨ types1.getD i none ≠ types2.getD i none
        then some (i, types1.getD i none, types2.getD i none)
        else none) := by
  rcases le_or_lt types1.length i with h1 | h1
  · rw [if_pos h1, getD_of_length_le h1,
      if_pos (Or.inl (le_trans (min_le_left _ _) h1))]
  · rw [if_neg (not_le.mpr h1)]
    rcases le_or_lt types2.length i with h2 | h2
    · rw [if_pos h2, getD_of_length_le h2,
        if_pos (Or.inl (le_trans (min_le_right _ _) h2))]
    · rw [if_neg (not_le.mpr h2)]
      have hmin : ¬ min types1.length types2.length ≤ i := by omega
      by_cases hne : types1.getD i none ≠ types2.getD i none
      · rw [if_pos hne, if_pos (Or.inr hne)]
      · rw [if_neg hne, if_neg (by tauto)]

/-- On identical snapshots the differ collects nothing. -/
theorem differ_self (S : List (Option α)) :
    differ_local_types S S = [] := by
  rw [differ_local_types, List.filterMap_eq_nil_iff]
  intro i hi
  rw [List.mem_range, max_self] at hi
  rw [if_neg (by omega), if_neg (by omega), if_neg (by simp)]

/-- C5 (amended): the changed set is computed index-by-index over
max(len(P), len(C)) with missing indices padded to null, and every entry
carries the padded (index, oldValue, newValue) — but an index beyond the
shorter snapshot is always collected, even when both padded values are null
(and hence equal); within the common range exactly the differing indices
are collected.  The single-insertion instance of the claim holds as stated:
for a previous snapshot of length 3 and the same snapshot plus one appended
non-null slot, the changed set is exactly [(3, null, newValue)]. -/
theorem differ_characterization (types1 types2 : List (Option α))
    (a b c : Option α) (v : α) :
    differ_local_types types1 types2 =
      (List.range (max types1.length types2.length)).filterMap (fun i =>
        if min types1.length types2.length ≤ i
            ∨ types1.getD i none ≠ types2.getD i none
        then some (i, types1.getD i none, types2.getD i none)
        else none)
    ∧ differ_local_types [a, b, c] [a, b, c, some v] = [(3, none, some v)] := by
  constructor
  · rw [differ_local_types]
    have h : (fun i =>
        if types1.length ≤ i then some (i, (none : Option α), types2.getD i none)
        else if types2.length ≤ i then some (i, types1.getD i none, (none : Option α))
        else if types1.getD i none ≠ types2.getD i none then
          some (i, types1.getD i none, types2.getD i none)
        else none)
      = (fun i =>
        if min types1.length types2.length ≤ i
            ∨ types1.getD i none ≠ types2.getD i none
        then some (i, types1.getD i none, types2.getD i none)
        else none) := funext (differ_entry_eq types1 types2)
    rw [h]
  · have hr : List.range (max ([a, b, c].length) ([a, b, c, some v].length))
        = [0, 1, 2, 3] := rfl
    rw [differ_local_types, hr]
    simp [List.filterMap]

/-- C5 falsified as stated: for previous snapshot [slot] and current snapshot
[slot, null], the padded values at index 1 are both null, so the claim's
changed set is empty there; the source nevertheless collects (1, null, null)
because an index beyond the shorter snapshot is appended unconditionally. -/
theorem padded_diff_counterexample :
    differ_local_types [some (1 : Nat)] [some 1, none] = [(1, none, none)]
    ∧ spec_changed_set [some (1 : Nat)] [some 1, none] = [] := by
  decide

/-- C2 (amended): on the first-ever comparison (no previous snapshot), the
handler stores the current snapshot and transmits it whole — every slot,
null slots included — regardless of content, with status 0. -/
theorem first_comparison_sends_all (local_types : List (Option α)) :
    local_types_changed none local_types
      = ⟨some local_types, local_types, 0⟩ := rfl

/-- C2 falsified as stated: a first comparison whose current snapshot is the
single null slot transmits [null], not the empty sequence of non-null
slots. -/
theorem first_comparison_counterexample :
    (local_types_changed (none : Option (List (Option Nat))) [none]).payload
        = some [none]
    ∧ (local_types_changed (none : Option (List (Option Nat))) [none]).payload
        ≠ some (List.filter (fun s => s.isSome) [none]) := by
  decide

/-- An empty changed set transmits nothing. -/
theorem payload_of_nil {last cur : List (Option α)}
    (h : differ_local_types last cur = []) :
    (local_types_changed (some last) cur).payload = none := by
  simp [local_types_changed, h]

/-- A changed set that is a single entry with null new value transmits
nothing. -/
theorem payload_of_single_none {last cur : List (Option α)} {i : Nat}
    {o : Option α}
    (h : differ_local_types last cur = [(i, o, none)]) :
    (local_types_changed (some last) cur).payload = none := by
  simp [local_types_changed, h]

/-- Every other changed set transmits the ordered sequence of its entries'
new values. -/
theorem payload_of_send {last cur : List (Option α)}
    (h1 : differ_local_types last cur ≠ [])
    (h2 : ∀ i o, differ_local_types last cur ≠ [(i, o, (none : Option α))]) :
    (local_types_changed (some last) cur).payload
      = some ((differ_local_types last cur).map fun t => t.2.2) := by
  rcases hd : differ_local_types last cur with _ | ⟨⟨i, o, nv⟩, rest⟩
  · exact absurd hd h1
  · rcases rest with _ | ⟨e2, rest2⟩
    · rcases nv with _ | v
      · exact absurd hd (h2 i o)
      · simp [local_types_changed, hd]
    · simp [local_types_changed, hd]

/-- C3 (amended): for a non-first comparison, an empty changed set transmits
nothing (in particular comparing a snapshot against itself transmits
nothing), a changed set that is a single entry whose new value is null also
transmits nothing, and every other changed set transmits exactly the
ordered sequence of bare new values of its entries (the indices are not
part of the payload). -/
theorem diff_payload_characterization (last cur : List (Option α)) :
    (differ_local_types last cur = [] →
      (local_types_changed (some last) cur).payload = none)
    ∧ (∀ i o, differ_local_types last cur = [(i, o, (none : Option α))] →
      (local_types_changed (some last) cur).payload = none)
    ∧ (differ_local_types last cur ≠ [] →
      (∀ i o, differ_local_types last cur ≠ [(i, o, (none : Option α))]) →
      (local_types_changed (some last) cur).payload
        = some ((differ_local_types last cur).map fun t => t.2.2))
    ∧ (local_types_changed (some cur) cur).payload = none :=
  ⟨fun h => payload_of_nil h,
   fun _ _ h => payload_of_single_none h,
   fun hne hns => payload_of_send hne hns,
   payload_of_nil (differ_self cur)⟩

/-- C3 falsified as stated: for previous snapshot [slot] and current snapshot
[], the changed set is the single trailing deletion (0, slot, null) — it is
not empty — yet the handler transmits nothing. -/
theorem diff_nonempty_suppressed_counterexample :
    differ_local_types [some (1 : Nat)] [] = [(0, some 1, none)]
    ∧ (local_types_changed (some [some (1 : Nat)])
        ([] : List (Option Nat))).payload = none := by
  decide

/-- Witness for C3's amended claim at concrete snapshots [some 1] and
[some 2]: the single changed entry has a non-null new value, so exactly the
bare new value is transmitted. -/
theorem diff_payload_witness :
    (local_types_changed (some [some (1 : Nat)]) [some 2]).payload
      = some [some 2] := by
  have hns : ∀ i o,
      differ_local_types [some (1 : Nat)] [some 2] ≠ [(i, o, none)] := by
    intro i o hc
    have hdd : differ_local_types [some (1 : Nat)] [some 2]
        = [(0, some 1, some 2)] := by decide
    rw [hdd] at hc
    simp at hc
  have h := (diff_payload_characterization [some (1 : Nat)] [some 2]).2.2.1
    (by decide) hns
  rw [h]
  decide

/-- C4 (amended): the diff suppresses emission exactly when the change set
is empty or is a single entry whose new value is null — any lone deletion
is swallowed, whether at the last position or not; change sets of size
greater than one, and single entries with a non-null new value, are never
swallowed. -/
theorem suppression_characterization (last cur : List (Option α)) :
    (local_types_changed (some last) cur).payload = none ↔
      differ_local_types last cur = []
      ∨ ∃ i o, differ_local_types last cur = [(i, o, (none : Option α))] := by
  constructor
  · intro h
    by_cases h1 : differ_local_types last cur = []
    · exact Or.inl h1
    · by_cases h2 : ∃ i o,
          differ_local_types last cur = [(i, o, (none : Option α))]
      · exact Or.inr h2
      · push_neg at h2
        rw [payload_of_send h1 h2] at h
        exact absurd h (by simp)
  · rintro (h | ⟨i, o, h⟩)
    · exact payload_of_nil h
    · exact payload_of_single_none h

/-- C4 falsified as stated: for previous snapshot [A, B] and current
snapshot [null, B], the change set is the single deletion at position 0 —
not at the last position (position 1 exists) — yet the handler swallows it
and emits nothing. -/
theorem trailing_deletion_counterexample :
    differ_local_types [some (1 : Nat), some 2] [none, some 2]
        = [(0, some 1, none)]
    ∧ (local_types_changed (some [some (1 : Nat), some 2])
        [none, some 2]).payload = none := by
  decide

/-- Witness for C4's amended claim: the trailing deletion of [some 5] → []
is a single entry with null new value, so nothing is emitted. -/
theorem suppression_witness :
    (local_types_changed (some [some (5 : Nat)])
        ([] : List (Option Nat))).payload = none :=
  (suppression_characterization [some (5 : Nat)] []).mpr
    (Or.inr ⟨0, some 5, by decide⟩)

/-! ## Operand representation classification: IDBHooks.op_type_changed

Host constants from the IDA SDK (ida_bytes): the per-operand type masks
MS_0TYPE / MS_1TYPE select the 4-bit representation nibble of operand 0
resp. operand 1, and each representation flag function combines the two
per-operand flag values. -/

def MS_0TYPE : Nat := 0x00F00000

def MS_1TYPE : Nat := 0x0F000000

def FF_0NUMH : Nat := 0x00100000

def FF_1NUMH : Nat := 0x01000000

def FF_0NUMD : Nat := 0x00200000

def FF_1NUMD : Nat := 0x02000000

def FF_0CHAR : Nat := 0x00300000

def FF_1CHAR : Nat := 0x03000000

def FF_0NUMB : Nat := 0x00600000

def FF_1NUMB : Nat := 0x06000000

def FF_0NUMO : Nat := 0x00700000

def FF_1NUMO : Nat := 0x07000000

def FF_0ENUM : Nat := 0x00800000

def FF_1ENUM : Nat := 0x08000000

def FF_0STRO : Nat := 0x00A00000

def FF_1STRO : Nat := 0x0A000000

def FF_0STK : Nat := 0x00B00000

def FF_1STK : Nat := 0x0B000000

def hex_flag : Nat := FF_0NUMH ||| FF_1NUMH

def dec_flag : Nat := FF_0NUMD ||| FF_1NUMD

def char_flag : Nat := FF_0CHAR ||| FF_1CHAR

def bin_flag : Nat := FF_0NUMB ||| FF_1NUMB

def oct_flag : Nat := FF_0NUMO ||| FF_1NUMO

def enum_flag : Nat := FF_0ENUM ||| FF_1ENUM

def stroff_flag : Nat := FF_0STRO ||| FF_1STRO

def stkvar_flag : Nat := FF_0STK ||| FF_1STK

/-- mask = MS_0TYPE if not n else MS_1TYPE. -/
def op_mask (n : Nat) : Nat :=
  if n = 0 then MS_0TYPE else MS_1TYPE

/-- The local helper is_flag of op_type_changed:
flags == mask & type, where flags = get_full_flags(ea) & mask. -/
def is_flag (flags mask t : Nat) : Bool :=
  flags == mask &&& t

/-- The if/elif chain of op_type_changed, classifying the masked flags.
Note the struct branch tests is_flag(flags & stroff_flag()) — the source
masks the struct-offset constant with the flags themselves — reproduced
verbatim.  The final else returns without emitting. -/
def classify_op (flags mask : Nat) : Option String :=
  if is_flag flags mask hex_flag then some "hex"
  else if is_flag flags mask dec_flag then some "dec"
  else if is_flag flags mask char_flag then some "chr"
  else if is_flag flags mask bin_flag then some "bin"
  else if is_flag flags mask oct_flag then some "oct"
  else if is_flag flags mask enum_flag then some "enum"
  else if is_flag flags mask (flags &&& stroff_flag) then some "struct"
  else if is_flag flags mask stkvar_flag then some "stkvar"
  else none

/-- IDBHooks.op_type_changed for operand n at an address whose full flags
are full_flags: the classified representation of the event sent (none when
no event is emitted), and the value returned to the host — 0 on every
path.  The host-derived extra payload of the enum and struct events (enum
id/serial, struct path/delta) is resolved by pure host queries and is not
modelled; the claims concern only the classification and whether an event
is emitted. -/
def op_type_changed (full_flags n : Nat) : Option String × Nat :=
  (classify_op (full_flags &&& op_mask n) (op_mask n), 0)

/-- Masking with a shifted nibble extracts the 4 bits at the shift. -/
theorem and_nibble (x s : Nat) : x &&& (15 <<< s) = ((x >>> s) % 16) <<< s := by
  have h15 : (15 : Nat) = 2 ^ 4 - 1 := by norm_num
  have h16 : (16 : Nat) = 2 ^ 4 := by norm_num
  apply Nat.eq_of_testBit_eq
  intro i
  rw [h15, h16]
  simp only [Nat.testBit_and, Nat.testBit_shiftLeft, Nat.testBit_mod_two_pow,
    Nat.testBit_shiftRight, Nat.testBit_two_pow_sub_one, ge_iff_le]
  by_cases hs : s ≤ i
  · rw [Nat.add_sub_cancel' hs]
    cases Nat.testBit x i <;> cases hd : decide (i - s < 4) <;> simp [hs]
  · simp [hs]

/-- C6 (amended): the handler always returns status 0 and classifies every
emitted event into exactly one of the fixed set {hex, dec, chr, bin, oct,
enum, struct, stkvar}; whenever no event is emitted the flag value matches
none of the known masks, but the converse fails: a flag value whose masked
representation bits are all clear passes the struct test (which the source
masks with the flags themselves) and emits a struct event. -/
theorem op_type_changed_classification (full_flags n : Nat) :
    (op_type_changed full_flags n).2 = 0
    ∧ (op_type_changed full_flags n).1 ∈
        [none, some "hex", some "dec", some "chr", some "bin", some "oct",
         some "enum", some "struct", some "stkvar"]
    ∧ ((op_type_changed full_flags n).1 = none →
        full_flags &&& op_mask n ≠ op_mask n &&& hex_flag
        ∧ full_flags &&& op_mask n ≠ op_mask n &&& dec_flag
        ∧ full_flags &&& op_mask n ≠ op_mask n &&& char_flag
        ∧ full_flags &&& op_mask n ≠ op_mask n &&& bin_flag
        ∧ full_flags &&& op_mask n ≠ op_mask n &&& oct_flag
        ∧ full_flags &&& op_mask n ≠ op_mask n &&& enum_flag
        ∧ full_flags &&& op_mask n ≠ op_mask n &&& stroff_flag
        ∧ full_flags &&& op_mask n ≠ op_mask n &&& stkvar_flag)
    ∧ (full_flags &&& op_mask n = 0 →
        (op_type_changed full_flags n).1 = some "struct") := by
  by_cases hn : n = 0
  · have hmask : op_mask n = MS_0TYPE := by rw [op_mask, if_pos hn]
    have hflags : full_flags &&& MS_0TYPE
        = ((full_flags >>> 20) % 16) <<< 20 := by
      rw [show MS_0TYPE = 15 <<< 20 by decide, and_nibble]
    simp only [op_type_changed, hmask, hflags]
    have hv16 : (full_flags >>> 20) % 16 < 16 := Nat.mod_lt _ (by norm_num)
    set v := (full_flags >>> 20) % 16 with hv
    clear_value v
    interval_cases v <;> decide
  · have hmask : op_mask n = MS_1TYPE := by rw [op_mask, if_neg hn]
    have hflags : full_flags &&& MS_1TYPE
        = ((full_flags >>> 24) % 16) <<< 24 := by
      rw [show MS_1TYPE = 15 <<< 24 by decide, and_nibble]
    simp only [op_type_changed, hmask, hflags]
    have hv16 : (full_flags >>> 24) % 16 < 16 := Nat.mod_lt _ (by norm_num)
    set v := (full_flags >>> 24) % 16 with hv
    clear_value v
    interval_cases v <;> decide

/-- C6 falsified as stated: the all-clear flag value (no representation bits
set) matches none of the eight known masks, yet the handler emits a struct
event for it instead of emitting nothing. -/
theorem op_type_void_counterexample :
    op_type_changed 0 0 = (some "struct", 0)
    ∧ 0 &&& MS_0TYPE ≠ MS_0TYPE &&& hex_flag
    ∧ 0 &&& MS_0TYPE ≠ MS_0TYPE &&& dec_flag
    ∧ 0 &&& MS_0TYPE ≠ MS_0TYPE &&& char_flag
    ∧ 0 &&& MS_0TYPE ≠ MS_0TYPE &&& bin_flag
    ∧ 0 &&& MS_0TYPE ≠ MS_0TYPE &&& oct_flag
    ∧ 0 &&& MS_0TYPE ≠ MS_0TYPE &&& enum_flag
    ∧ 0 &&& MS_0TYPE ≠ MS_0TYPE &&& stroff_flag
    ∧ 0 &&& MS_0TYPE ≠ MS_0TYPE &&& stkvar_flag := by
  decide

/-- Witness for C6's amended claim: the all-clear flag value is classified
as a struct event. -/
theorem op_type_changed_witness :
    (op_type_changed 0 0).1 = some "struct" :=
  (op_type_changed_classification 0 0).2.2.2 (by decide)

/-! ## Simple adapter entry point: IDBHooks.make_code -/

/-- The event built by IDBHooks.make_code. -/
inductive IdbEvent where
  | makeCode (ea : Nat)
deriving DecidableEq

/-- IDBHooks.make_code: builds one MakeCodeEvent from insn.ea, forwards it,
and returns 0. -/
def make_code (insn_ea : Nat) : List IdbEvent × Nat :=
  ([IdbEvent.makeCode insn_ea], 0)

/-! ## Per-function decompiler metadata: HexRaysHooks

The five per-function sub-caches (user labels, comments, instruction
flags, variable layout, numeric formats) are compared by full structural
equality only, so the embedding is polymorphic in the five cache value
types.  The host query surface (_get_user_labels etc., which iterate pure
host-provided containers, plus get_screen_ea/get_func) is modelled as a
structure of pure functions. -/

/-- The host queries used by HexRaysHooks._hxe_callback: the screen address,
the enclosing function of an address (its start_ea), and the five
_get_user_* cache reads for a function entry address. -/
structure HxHost (L Cm Ifl Lv Nf : Type) where
  screen_ea : Nat
  get_func : Nat → Option Nat
  user_labels : Nat → L
  user_cmts : Nat → Cm
  user_iflags : Nat → Ifl
  user_lvar_settings : Nat → Lv
  user_numforms : Nat → Nf

/-- The mutable fields of a HexRaysHooks instance: _installed, _func_ea and
the five previous sub-cache values. -/
structure HxState (L Cm Ifl Lv Nf : Type) where
  installed : Bool
  func_ea : Nat
  labels : L
  cmts : Cm
  iflags : Ifl
  lvar_settings : Lv
  numforms : Nf
deriving DecidableEq

/-- The five sub-cache events a refresh can emit (UserLabelsEvent etc.),
each carrying the function address and the new full sub-cache value. -/
inductive HxEvent (L Cm Ifl Lv Nf : Type) where
  | user_labels (ea : Nat) (labels : L)
  | user_cmts (ea : Nat) (cmts : Cm)
  | user_iflags (ea : Nat) (iflags : Ifl)
  | user_lvar_settings (ea : Nat) (lvar_settings : Lv)
  | user_numforms (ea : Nat) (numforms : Nf)
deriving DecidableEq

/-- Result of one _hxe_callback invocation: the new hook state, the events
forwarded in order, and the value returned to the host — some 0 models
`return 0`, none models the bare `return` taken when no function encloses
the screen address. -/
structure HxResult (L Cm Ifl Lv Nf : Type) where
  state : HxState L Cm Ifl Lv Nf
  events : List (HxEvent L Cm Ifl Lv Nf)
  status : Option Nat
deriving DecidableEq

/-- The callback's event argument, abstracted to whether it equals
ida_hexrays.hxe_func_printed. -/
inductive HxeEvent where
  | func_printed
  | other
deriving DecidableEq

variable {L Cm Ifl Lv Nf : Type}
variable [DecidableEq L] [DecidableEq Cm] [DecidableEq Ifl] [DecidableEq Lv]
variable [DecidableEq Nf]

/-- HexRaysHooks._send_user_labels: re-query the host, and when the value
differs from the stored one, emit it and store it. -/
def send_user_labels (host : HxHost L Cm Ifl Lv Nf)
    (s : HxState L Cm Ifl Lv Nf) (ea : Nat) :
    HxState L Cm Ifl Lv Nf × List (HxEvent L Cm Ifl Lv Nf) :=
  let labels := host.user_labels ea
  if labels ≠ s.labels then
    ({ s with labels := labels }, [HxEvent.user_labels ea labels])
  else (s, [])

/-- HexRaysHooks._send_user_cmts. -/
def send_user_cmts (host : HxHost L Cm Ifl Lv Nf)
    (s : HxState L Cm Ifl Lv Nf) (ea : Nat) :
    HxState L Cm Ifl Lv Nf × List (HxEvent L Cm Ifl Lv Nf) :=
  let cmts := host.user_cmts ea
  if cmts ≠ s.cmts then
    ({ s with cmts := cmts }, [HxEvent.user_cmts ea cmts])
  else (s, [])

/-- HexRaysHooks._send_user_iflags. -/
def send_user_iflags (host : HxHost L Cm Ifl Lv Nf)
    (s : HxState L Cm Ifl Lv Nf) (ea : Nat) :
    HxState L Cm Ifl Lv Nf × List (HxEvent L Cm Ifl Lv Nf) :=
  let iflags := host.user_iflags ea
  if iflags ≠ s.iflags then
    ({ s with iflags := iflags }, [HxEvent.user_iflags ea iflags])
  else (s, [])

/-- HexRaysHooks._send_user_lvar_settings. -/
def send_user_lvar_settings (host : HxHost L Cm Ifl Lv Nf)
    (s : HxState L Cm Ifl Lv Nf) (ea : Nat) :
    HxState L Cm Ifl Lv Nf × List (HxEvent L Cm Ifl Lv Nf) :=
  let lvar_settings := host.user_lvar_settings ea
  if lvar_settings ≠ s.lvar_settings then
    ({ s with lvar_settings := lvar_settings },
      [HxEvent.user_lvar_settings ea lvar_settings])
  else (s, [])

/-- HexRaysHooks._send_user_numforms. -/
def send_user_numforms (host : HxHost L Cm Ifl Lv Nf)
    (s : HxState L Cm Ifl Lv Nf) (ea : Nat) :
    HxState L Cm Ifl Lv Nf × List (HxEvent L Cm Ifl Lv Nf) :=
  let numforms := host.user_numforms ea
  if numforms ≠ s.numforms then
    ({ s with numforms := numforms }, [HxEvent.user_numforms ea numforms])
  else (s, [])

/-- The five _send_user_* calls of the hxe_func_printed branch, in source
order (labels, comments, instruction flags, variable layout, numeric
formats), threaded through the state, with the forwarded events
concatenated in the same order. -/
def hxe_refresh (host : HxHost L Cm Ifl Lv Nf)
    (s0 : HxState L Cm Ifl Lv Nf) (fea : Nat) :
    HxState L Cm Ifl Lv Nf × List (HxEvent L Cm Ifl Lv Nf) :=
  let r1 := send_user_labels host s0 fea
  let r2 := send_user_cmts host r1.1 fea
  let r3 := send_user_iflags host r2.1 fea
  let r4 := send_user_lvar_settings host r3.1 fea
  let r5 := send_user_numforms host r4.1 fea
  (r5.1, r1.2 ++ r2.2 ++ r3.2 ++ r4.2 ++ r5.2)

/-- HexRaysHooks._hxe_callback.  When not installed, or for an event other
than hxe_func_printed, nothing happens and 0 is returned.  For
hxe_func_printed: when no function encloses the screen address the callback
returns without a value (bare `return`); otherwise, when the displayed
function changed since the last refresh, the whole snapshot is first
rebound to freshly queried values for the new function, and then the five
sub-caches are compared and sent. -/
def hxe_callback (host : HxHost L Cm Ifl Lv Nf)
    (s : HxState L Cm Ifl Lv Nf) (event : HxeEvent) :
    HxResult L Cm Ifl Lv Nf :=
  if s.installed = false then ⟨s, [], some 0⟩
  else
    match event with
    | HxeEvent.other => ⟨s, [], some 0⟩
    | HxeEvent.func_printed =>
      match host.get_func host.screen_ea with
      | none => ⟨s, [], none⟩
      | some fea =>
        let s0 := if s.func_ea ≠ fea then
            (⟨s.installed, fea, host.user_labels fea, host.user_cmts fea,
              host.user_iflags fea, host.user_lvar_settings fea,
              host.user_numforms fea⟩ : HxState L Cm Ifl Lv Nf)
          else s
        let r := hxe_refresh host s0 fea
        ⟨r.1, r.2, some 0⟩

/-- A sub-cache send that finds the stored value emits nothing. -/
theorem send_user_labels_of_eq {host : HxHost L Cm Ifl Lv Nf}
    {s : HxState L Cm Ifl Lv Nf} {ea : Nat}
    (h : host.user_labels ea = s.labels) :
    send_user_labels host s ea = (s, []) := by
  simp [send_user_labels, h]

theorem send_user_cmts_of_eq {host : HxHost L Cm Ifl Lv Nf}
    {s : HxState L Cm Ifl Lv Nf} {ea : Nat}
    (h : host.user_cmts ea = s.cmts) :
    send_user_cmts host s ea = (s, []) := by
  simp [send_user_cmts, h]

theorem send_user_iflags_of_eq {host : HxHost L Cm Ifl Lv Nf}
    {s : HxState L Cm Ifl Lv Nf} {ea : Nat}
    (h : host.user_iflags ea = s.iflags) :
    send_user_iflags host s ea = (s, []) := by
  simp [send_user_iflags, h]

theorem send_user_lvar_settings_of_eq {host : HxHost L Cm Ifl Lv Nf}
    {s : HxState L Cm Ifl Lv Nf} {ea : Nat}
    (h : host.user_lvar_settings ea = s.lvar_settings) :
    send_user_lvar_settings host s ea = (s, []) := by
  simp [send_user_lvar_settings, h]

theorem send_user_numforms_of_eq {host : HxHost L Cm Ifl Lv Nf}
    {s : HxState L Cm Ifl Lv Nf} {ea : Nat}
    (h : host.user_numforms ea = s.numforms) :
    send_user_numforms host s ea = (s, []) := by
  simp [send_user_numforms, h]

/-- A sub-cache send that finds a changed value emits it and stores it. -/
theorem send_user_labels_of_ne {host : HxHost L Cm Ifl Lv Nf}
    {s : HxState L Cm Ifl Lv Nf} {ea : Nat}
    (h : host.user_labels ea ≠ s.labels) :
    send_user_labels host s ea
      = ({ s with labels := host.user_labels ea },
         [HxEvent.user_labels ea (host.user_labels ea)]) := by
  simp [send_user_labels, h]

theorem send_user_cmts_of_ne {host : HxHost L Cm Ifl Lv Nf}
    {s : HxState L Cm Ifl Lv Nf} {ea : Nat}
    (h : host.user_cmts ea ≠ s.cmts) :
    send_user_cmts host s ea
      = ({ s with cmts := host.user_cmts ea },
         [HxEvent.user_cmts ea (host.user_cmts ea)]) := by
  simp [send_user_cmts, h]

theorem send_user_iflags_of_ne {host : HxHost L Cm Ifl Lv Nf}
    {s : HxState L Cm Ifl Lv Nf} {ea : Nat}
    (h : host.user_iflags ea ≠ s.iflags) :
    send_user_iflags host s ea
      = ({ s with iflags := host.user_iflags ea },
         [HxEvent.user_iflags ea (host.user_iflags ea)]) := by
  simp [send_user_iflags, h]

theorem send_user_lvar_settings_of_ne {host : HxHost L Cm Ifl Lv Nf}
    {s : HxState L Cm Ifl Lv Nf} {ea : Nat}
    (h : host.user_lvar_settings ea ≠ s.lvar_settings) :
    send_user_lvar_settings host s ea
      = ({ s with lvar_settings := host.user_lvar_settings ea },
         [HxEvent.user_lvar_settings ea (host.user_lvar_settings ea)]) := by
  simp [send_user_lvar_settings, h]

theorem send_user_numforms_of_ne {host : HxHost L Cm Ifl Lv Nf}
    {s : HxState L Cm Ifl Lv Nf} {ea : Nat}
    (h : host.user_numforms ea ≠ s.numforms) :
    send_user_numforms host s ea
      = ({ s with numforms := host.user_numforms ea },
         [HxEvent.user_numforms ea (host.user_numforms ea)]) := by
  simp [send_user_numforms, h]

/-- Each sub-cache send emits at most one event. -/
theorem send_user_labels_len (host : HxHost L Cm Ifl Lv Nf)
    (s : HxState L Cm Ifl Lv Nf) (ea : Nat) :
    (send_user_labels host s ea).2.length ≤ 1 := by
  by_cases h : host.user_labels ea = s.labels
  · simp [send_user_labels_of_eq h]
  · simp [send_user_labels_of_ne h]

theorem send_user_cmts_len (host : HxHost L Cm Ifl Lv Nf)
    (s : HxState L Cm Ifl Lv Nf) (ea : Nat) :
    (send_user_cmts host s ea).2.length ≤ 1 := by
  by_cases h : host.user_cmts ea = s.cmts
  · simp [send_user_cmts_of_eq h]
  · simp [send_user_cmts_of_ne h]

theorem send_user_iflags_len (host : HxHost L Cm Ifl Lv Nf)
    (s : HxState L Cm Ifl Lv Nf) (ea : Nat) :
    (send_user_iflags host s ea).2.length ≤ 1 := by
  by_cases h : host.user_iflags ea = s.iflags
  · simp [send_user_iflags_of_eq h]
  · simp [send_user_iflags_of_ne h]

theorem send_user_lvar_settings_len (host : HxHost L Cm Ifl Lv Nf)
    (s : HxState L Cm Ifl Lv Nf) (ea : Nat) :
    (send_user_lvar_settings host s ea).2.length ≤ 1 := by
  by_cases h : host.user_lvar_settings ea = s.lvar_settings
  · simp [send_user_lvar_settings_of_eq h]
  · simp [send_user_lvar_settings_of_ne h]

theorem send_user_numforms_len (host : HxHost L Cm Ifl Lv Nf)
    (s : HxState L Cm Ifl Lv Nf) (ea : Nat) :
    (send_user_numforms host s ea).2.length ≤ 1 := by
  by_cases h : host.user_numforms ea = s.numforms
  · simp [send_user_numforms_of_eq h]
  · simp [send_user_numforms_of_ne h]

/-- One refresh emits at most five events. -/
theorem hxe_refresh_len (host : HxHost L Cm Ifl Lv Nf)
    (s0 : HxState L Cm Ifl Lv Nf) (fea : Nat) :
    (hxe_refresh host s0 fea).2.length ≤ 5 := by
  have l1 := send_user_labels_len host s0 fea
  have l2 := send_user_cmts_len host (send_user_labels host s0 fea).1 fea
  have l3 := send_user_iflags_len host
    (send_user_cmts host (send_user_labels host s0 fea).1 fea).1 fea
  have l4 := send_user_lvar_settings_len host
    (send_user_iflags host
      (send_user_cmts host (send_user_labels host s0 fea).1 fea).1 fea).1 fea
  have l5 := send_user_numforms_len host
    (send_user_lvar_settings host
      (send_user_iflags host
        (send_user_cmts host (send_user_labels host s0 fea).1 fea).1 fea).1
      fea).1 fea
  simp only [hxe_refresh, List.length_append]
  omega

/-- Dispatch of _hxe_callback for hxe_func_printed while installed and with
an enclosing function: rebind if the displayed function changed, then run
the five sends. -/
theorem hxe_callback_printed (host : HxHost L Cm Ifl Lv Nf)
    (s : HxState L Cm Ifl Lv Nf) (fea : Nat)
    (hinst : s.installed = true)
    (hfunc : host.get_func host.screen_ea = some fea) :
    hxe_callback host s HxeEvent.func_printed
      = ⟨(hxe_refresh host
            (if s.func_ea ≠ fea then
              (⟨true, fea, host.user_labels fea, host.user_cmts fea,
                host.user_iflags fea, host.user_lvar_settings fea,
                host.user_numforms fea⟩ : HxState L Cm Ifl Lv Nf)
             else s) fea).1,
         (hxe_refresh host
            (if s.func_ea ≠ fea then
              (⟨true, fea, host.user_labels fea, host.user_cmts fea,
                host.user_iflags fea, host.user_lvar_settings fea,
                host.user_numforms fea⟩ : HxState L Cm Ifl Lv Nf)
             else s) fea).2,
         some 0⟩ := by
  simp [hxe_callback, hinst, hfunc]

/-- A refresh starting from a snapshot just rebound to the host's values at
fea finds all five sub-caches unchanged and emits nothing. -/
theorem hxe_refresh_fresh (host : HxHost L Cm Ifl Lv Nf)
    (inst : Bool) (fea : Nat) :
    hxe_refresh host
      ⟨inst, fea, host.user_labels fea, host.user_cmts fea,
        host.user_iflags fea, host.user_lvar_settings fea,
        host.user_numforms fea⟩ fea
      = (⟨inst, fea, host.user_labels fea, host.user_cmts fea,
          host.user_iflags fea, host.user_lvar_settings fea,
          host.user_numforms fea⟩, []) := by
  have h1 : send_user_labels host
      (⟨inst, fea, host.user_labels fea, host.user_cmts fea,
        host.user_iflags fea, host.user_lvar_settings fea,
        host.user_numforms fea⟩ : HxState L Cm Ifl Lv Nf) fea
      = (⟨inst, fea, host.user_labels fea, host.user_cmts fea,
          host.user_iflags fea, host.user_lvar_settings fea,
          host.user_numforms fea⟩, []) := send_user_labels_of_eq rfl
  have h2 : send_user_cmts host
      (⟨inst, fea, host.user_labels fea, host.user_cmts fea,
        host.user_iflags fea, host.user_lvar_settings fea,
        host.user_numforms fea⟩ : HxState L Cm Ifl Lv Nf) fea
      = (⟨inst, fea, host.user_labels fea, host.user_cmts fea,
          host.user_iflags fea, host.user_lvar_settings fea,
          host.user_numforms fea⟩, []) := send_user_cmts_of_eq rfl
  have h3 : send_user_iflags host
      (⟨inst, fea, host.user_labels fea, host.user_cmts fea,
        host.user_iflags fea, host.user_lvar_settings fea,
        host.user_numforms fea⟩ : HxState L Cm Ifl Lv Nf) fea
      = (⟨inst, fea, host.user_labels fea, host.user_cmts fea,
          host.user_iflags fea, host.user_lvar_settings fea,
          host.user_numforms fea⟩, []) := send_user_iflags_of_eq rfl
  have h4 : send_user_lvar_settings host
      (⟨inst, fea, host.user_labels fea, host.user_cmts fea,
        host.user_iflags fea, host.user_lvar_settings fea,
        host.user_numforms fea⟩ : HxState L Cm Ifl Lv Nf) fea
      = (⟨inst, fea, host.user_labels fea, host.user_cmts fea,
          host.user_iflags fea, host.user_lvar_settings fea,
          host.user_numforms fea⟩, []) := send_user_lvar_settings_of_eq rfl
  have h5 : send_user_numforms host
      (⟨inst, fea, host.user_labels fea, host.user_cmts fea,
        host.user_iflags fea, host.user_lvar_settings fea,
        host.user_numforms fea⟩ : HxState L Cm Ifl Lv Nf) fea
      = (⟨inst, fea, host.user_labels fea, host.user_cmts fea,
          host.user_iflags fea, host.user_lvar_settings fea,
          host.user_numforms fea⟩, []) := send_user_numforms_of_eq rfl
  simp only [hxe_refresh, h1, h2, h3, h4, h5, List.append_nil]

/-- C10: when the displayed function's entry address differs from the
previously bound one, the whole snapshot is first rebound to freshly
queried values for the new function and only then compared, so the refresh
emits no sub-cache events at all, returns 0, and leaves the state bound to
the new function with its five freshly queried caches. -/
theorem hxe_rebind_no_events (host : HxHost L Cm Ifl Lv Nf)
    (s : HxState L Cm Ifl Lv Nf) (fea : Nat)
    (hinst : s.installed = true)
    (hfunc : host.get_func host.screen_ea = some fea)
    (hnew : s.func_ea ≠ fea) :
    hxe_callback host s HxeEvent.func_printed
      = ⟨⟨true, fea, host.user_labels fea, host.user_cmts fea,
          host.user_iflags fea, host.user_lvar_settings fea,
          host.user_numforms fea⟩, [], some 0⟩ := by
  rw [hxe_callback_printed host s fea hinst hfunc, if_pos hnew,
    hxe_refresh_fresh]

/-- Witness for C10 at a concrete host and state: switching from function 3
to function 7 rebinds everything and emits nothing. -/
theorem hxe_rebind_witness :
    hxe_callback (⟨0, fun _ => some 7, fun _ => 1, fun _ => 2, fun _ => 3,
        fun _ => 4, fun _ => 5⟩ : HxHost Nat Nat Nat Nat Nat)
      ⟨true, 3, 0, 0, 0, 0, 0⟩ HxeEvent.func_printed
      = ⟨⟨true, 7, 1, 2, 3, 4, 5⟩, [], some 0⟩ :=
  hxe_rebind_no_events
    (⟨0, fun _ => some 7, fun _ => 1, fun _ => 2, fun _ => 3,
      fun _ => 4, fun _ => 5⟩ : HxHost Nat Nat Nat Nat Nat)
    ⟨true, 3, 0, 0, 0, 0, 0⟩ 7 rfl rfl (by decide)

/-- C8: for a refresh of the same function where only the comments
sub-cache changed, exactly one sub-cache event is emitted — for comments,
carrying its new full value — the comments previous-value is replaced and
the other four previous-values are left unchanged; and (second scenario)
when all five sub-caches changed, the five events are emitted in the fixed
order labels, comments, instruction flags, variable layout, numeric
formats. -/
theorem hxe_single_subcache_change (host : HxHost L Cm Ifl Lv Nf)
    (s : HxState L Cm Ifl Lv Nf) (fea : Nat)
    (hinst : s.installed = true)
    (hfunc : host.get_func host.screen_ea = some fea)
    (hsame : s.func_ea = fea)
    (hlab : host.user_labels fea = s.labels)
    (hifl : host.user_iflags fea = s.iflags)
    (hlvar : host.user_lvar_settings fea = s.lvar_settings)
    (hnum : host.user_numforms fea = s.numforms)
    (hcmt : host.user_cmts fea ≠ s.cmts)
    (host2 : HxHost L Cm Ifl Lv Nf) (s2 : HxState L Cm Ifl Lv Nf) (fea2 : Nat)
    (hinst2 : s2.installed = true)
    (hfunc2 : host2.get_func host2.screen_ea = some fea2)
    (hsame2 : s2.func_ea = fea2)
    (hlab2 : host2.user_labels fea2 ≠ s2.labels)
    (hcmt2 : host2.user_cmts fea2 ≠ s2.cmts)
    (hifl2 : host2.user_iflags fea2 ≠ s2.iflags)
    (hlvar2 : host2.user_lvar_settings fea2 ≠ s2.lvar_settings)
    (hnum2 : host2.user_numforms fea2 ≠ s2.numforms) :
    hxe_callback host s HxeEvent.func_printed
      = ⟨{ s with cmts := host.user_cmts fea },
         [HxEvent.user_cmts fea (host.user_cmts fea)], some 0⟩
    ∧ (hxe_callback host2 s2 HxeEvent.func_printed).events
      = [HxEvent.user_labels fea2 (host2.user_labels fea2),
         HxEvent.user_cmts fea2 (host2.user_cmts fea2),
         HxEvent.user_iflags fea2 (host2.user_iflags fea2),
         HxEvent.user_lvar_settings fea2 (host2.user_lvar_settings fea2),
         HxEvent.user_numforms fea2 (host2.user_numforms fea2)] := by
  constructor
  · rw [hxe_callback_printed host s fea hinst hfunc, if_neg (by simp [hsame])]
    simp [hxe_refresh, send_user_labels, send_user_cmts, send_user_iflags,
      send_user_lvar_settings, send_user_numforms, hlab, hifl, hlvar, hnum,
      hcmt]
  · rw [hxe_callback_printed host2 s2 fea2 hinst2 hfunc2,
      if_neg (by simp [hsame2])]
    simp [hxe_refresh, send_user_labels, send_user_cmts, send_user_iflags,
      send_user_lvar_settings, send_user_numforms, hlab2, hcmt2, hifl2,
      hlvar2, hnum2]

/-- Witness for C8 at concrete hosts and states: one changed comments
sub-cache emits exactly its event; five changed sub-caches emit the five
events in the fixed order. -/
theorem hxe_single_subcache_witness :
    hxe_callback (⟨0, fun _ => some 7, fun _ => 1, fun _ => 2, fun _ => 3,
        fun _ => 4, fun _ => 5⟩ : HxHost Nat Nat Nat Nat Nat)
      ⟨true, 7, 1, 99, 3, 4, 5⟩ HxeEvent.func_printed
      = ⟨⟨true, 7, 1, 2, 3, 4, 5⟩, [HxEvent.user_cmts 7 2], some 0⟩
    ∧ (hxe_callback (⟨0, fun _ => some 7, fun _ => 1, fun _ => 2, fun _ => 3,
        fun _ => 4, fun _ => 5⟩ : HxHost Nat Nat Nat Nat Nat)
      ⟨true, 7, 11, 12, 13, 14, 15⟩ HxeEvent.func_printed).events
      = [HxEvent.user_labels 7 1, HxEvent.user_cmts 7 2,
         HxEvent.user_iflags 7 3, HxEvent.user_lvar_settings 7 4,
         HxEvent.user_numforms 7 5] :=
  hxe_single_subcache_change
    (⟨0, fun _ => some 7, fun _ => 1, fun _ => 2, fun _ => 3,
      fun _ => 4, fun _ => 5⟩ : HxHost Nat Nat Nat Nat Nat)
    ⟨true, 7, 1, 99, 3, 4, 5⟩ 7 rfl rfl rfl rfl rfl rfl rfl (by decide)
    (⟨0, fun _ => some 7, fun _ => 1, fun _ => 2, fun _ => 3,
      fun _ => 4, fun _ => 5⟩ : HxHost Nat Nat Nat Nat Nat)
    ⟨true, 7, 11, 12, 13, 14, 15⟩ 7 rfl rfl rfl (by decide) (by decide)
    (by decide) (by decide) (by decide)

/-- C7 (amended): every modelled notification entry point is total and
returns the status the host expects (0), except the decompiler refresh
callback, which returns no status value — and forwards no events — when no
function encloses the screen address; each entry point forwards zero or one
event, except the decompiler refresh callback, which forwards up to five
(one per changed sub-cache). -/
theorem adapter_entry_totality {α : Type} [DecidableEq α] (insn_ea : Nat)
    (last_local_type : Option (List (Option α)))
    (local_types : List (Option α)) (full_flags n : Nat)
    (host : HxHost L Cm Ifl Lv Nf) (s : HxState L Cm Ifl Lv Nf)
    (event : HxeEvent) :
    make_code insn_ea = ([IdbEvent.makeCode insn_ea], 0)
    ∧ (local_types_changed last_local_type local_types).status = 0
    ∧ (op_type_changed full_flags n).2 = 0
    ∧ (hxe_callback host s event).events.length ≤ 5
    ∧ ((hxe_callback host s event).status = some 0
        ∨ ((hxe_callback host s event).status = none
            ∧ (hxe_callback host s event).events = [])) := by
  refine ⟨rfl, ?_, rfl, ?_, ?_⟩
  · rcases last_local_type with _ | last
    · rfl
    · simp only [local_types_changed]
      split
      · rfl
      · split <;> rfl
  · by_cases hi : s.installed = false
    · simp [hxe_callback, hi]
    · cases event with
      | func_printed =>
        rcases hg : host.get_func host.screen_ea with _ | fea
        · simp [hxe_callback, hi, hg]
        · simp only [hxe_callback, hi, hg, if_false, Bool.false_eq_true]
          exact hxe_refresh_len host _ fea
      | other => simp [hxe_callback, hi]
  · by_cases hi : s.installed = false
    · simp [hxe_callback, hi]
    · cases event with
      | func_printed =>
        rcases hg : host.get_func host.screen_ea with _ | fea
        · simp [hxe_callback, hi, hg]
        · simp [hxe_callback, hi, hg]
      | other => simp [hxe_callback, hi]

/-- C7 falsified as stated: at a concrete host state the decompiler refresh
callback forwards five events — not exactly one or zero — and, when no
function encloses the screen address, returns no status value instead of
the status the host expects. -/
theorem entry_point_counterexample :
    (hxe_callback (⟨0, fun _ => some 0, fun _ => 1, fun _ => 1, fun _ => 1,
        fun _ => 1, fun _ => 1⟩ : HxHost Nat Nat Nat Nat Nat)
      ⟨true, 0, 0, 0, 0, 0, 0⟩ HxeEvent.func_printed).events.length = 5
    ∧ (hxe_callback (⟨0, fun _ => none, fun _ => 1, fun _ => 1, fun _ => 1,
        fun _ => 1, fun _ => 1⟩ : HxHost Nat Nat Nat Nat Nat)
      ⟨true, 0, 0, 0, 0, 0, 0⟩ HxeEvent.func_printed).status = none := by
  decide

/-! ## Session state manager: idaconnect Core

The database-bound key-value store (the "$ idaconnect" netnode) holds the
identity triple under the keys hash/uuid/tick, the tick as a decimal
string.  The in-memory Core state holds _repo, _branch, _tick and the
hook-activation status; the extra ticks field models the distinct attribute
created by the assignment `core.ticks = 0` in closebase, which does not go
through the tick property. -/

/-- Contents of the database-bound store after a save_netnode. -/
structure Netnode where
  hash : Option String
  uuid : Option String
  tick : String
deriving DecidableEq

/-- The in-memory session identity of Core. -/
structure CoreState where
  repo : Option String
  branch : Option String
  tick : Nat
  ticks : Nat
  hooked : Bool
deriving DecidableEq

/-- The commands the session manager sends to the network dispatcher. -/
inductive Packet where
  | subscribe (repo branch : String) (tick : Nat)
  | unsubscribe
deriving DecidableEq

/-- Core.save_netnode: writes hash := repo, uuid := branch and
tick := str(tick) into the store. -/
def save_netnode (s : CoreState) : Netnode :=
  ⟨s.repo, s.branch, toString s.tick⟩

/-- IDBHooksCore.closebase: sends Unsubscribe(), deactivates all adapter
hooks (core.unhook_all()), then assigns core.repo = None and
core.branch = None — each of these two goes through the property setter,
which immediately persists the full triple with save_netnode — and finally
assigns core.ticks = 0, which creates a distinct attribute and leaves the
tick property (and hence self._tick) unchanged.  Returns the final
in-memory state, the sequence of store writes performed, and the packets
sent. -/
def closebase (s : CoreState) : CoreState × List Netnode × List Packet :=
  let packets := [Packet.unsubscribe]
  let s1 : CoreState := { s with hooked := false }
  let s2 : CoreState := { s1 with repo := none }
  let node2 := save_netnode s2
  let s3 : CoreState := { s2 with branch := none }
  let node3 := save_netnode s3
  let s4 : CoreState := { s3 with ticks := 0 }
  (s4, [node2, node3], packets)

/-- C1 (amended): closebase sends exactly one Unsubscribe and deactivates
the hooks; it resets repo and branch to null in memory, and each of those
two setter assignments immediately persists the identity triple to the
database-bound store — first (null, branch, tick), then
(null, null, tick) — so the store is written (ending with null repo, null
branch and the old tick); the in-memory tick is left unchanged, because the
reset assigns the separate ticks attribute instead of the tick property. -/
theorem closebase_behavior (s : CoreState) :
    closebase s
      = (⟨none, none, s.tick, 0, false⟩,
         [⟨none, s.branch, toString s.tick⟩, ⟨none, none, toString s.tick⟩],
         [Packet.unsubscribe]) := rfl

/-- C1 falsified as stated: closing from repo "r", branch "b", tick 5 leaves
the in-memory tick at 5 (not 0) and writes the store (its final contents
differ from the previously persisted triple). -/
theorem closebase_claim_counterexample :
    (closebase ⟨some "r", some "b", 5, 0, true⟩).1.tick = 5
    ∧ (closebase ⟨some "r", some "b", 5, 0, true⟩).1.tick ≠ 0
    ∧ (closebase ⟨some "r", some "b", 5, 0, true⟩).2.1 ≠ []
    ∧ (closebase ⟨some "r", some "b", 5, 0, true⟩).2.1.getLast?
        ≠ some (save_netnode ⟨some "r", some "b", 5, 0, true⟩) := by
  decide

/-! ## Launch-state reconnect and cleanup: Core.load_state -/

/-- The observable effects of load_state: a network connect request, or the
removal of a file. -/
inductive CoreAction where
  | connect (host : String) (port : Nat)
  | removeFile (path : String)
deriving DecidableEq

/-- The parsed contents of the state.json launch-state file; a none field
models an absent key. -/
structure LaunchState where
  servers : Option (List (String × Nat))
  connect : Option Bool
  host : Option String
  port : Option Nat
  remove : Option String
deriving DecidableEq

/-- The index of the last occurrence of c, or -1 when absent (Python
str.rfind). -/
def lastIdxOf (c : Char) (cs : List Char) : Int :=
  (cs.foldl (fun (acc : Int × Int) ch =>
    (if ch = c then acc.2 else acc.1, acc.2 + 1)) (-1, 0)).1

/-- os.path.splitext with separator slash (posixpath semantics): split at
the last dot that comes after the last slash, unless every basename
character before that dot is itself a dot (a leading-dot name such as
.bashrc has no extension). -/
def splitext (p : String) : String × String :=
  let cs := p.data
  let sepIndex := lastIdxOf '/' cs
  let dotIndex := lastIdxOf '.' cs
  if sepIndex < dotIndex then
    if (List.range cs.length).any (fun k =>
        decide (sepIndex + 1 ≤ (k : Int)) && decide ((k : Int) < dotIndex)
          && decide (cs.getD k ' ' ≠ '.')) then
      (⟨cs.take dotIndex.toNat⟩, ⟨cs.drop dotIndex.toNat⟩)
    else (p, "")
  else (p, "")

/-- The five fixed sibling-index-file extensions removed on reconnect. -/
def siblingExts : List String := [".id0", ".id1", ".nam", ".til", ".seg"]

/-- The removal loop of load_state: for each extension in order, when
idbFile + ext exists, call os.remove on it.  pathExists models
os.path.exists; removeOk models whether os.remove succeeds — when it does
not, the raised error propagates: the loop stops and the error (the failing
path) escapes load_state.  Returns the removals performed and the failing
path, if any. -/
def removeLoop (idbFile : String) (exts : List String)
    (pathExists removeOk : String → Bool) :
    List CoreAction × Option String :=
  match exts with
  | [] => ([], none)
  | ext :: rest =>
    let f := idbFile ++ ext
    if pathExists f then
      if removeOk f then
        let r := removeLoop idbFile rest pathExists removeOk
        (CoreAction.removeFile f :: r.1, r.2)
      else ([], some f)
    else removeLoop idbFile rest pathExists removeOk

/-- Result of Core.load_state: the server list loaded from the state file
(none when the key was absent or the file missing), the effects performed
in order, and the error that escaped, if any. -/
structure LoadResult where
  servers : Option (List (String × Nat))
  actions : List CoreAction
  error : Option String
deriving DecidableEq

/-- Core.load_state: nothing happens when the state file does not exist;
otherwise the server list is loaded, and when the connect flag is present
and true, a connect request to the recorded host and port is issued (when
both keys are present), followed — when a remove path is present — by the
best-effort removal of the five sibling index files derived from that
path's stem. -/
def load_state (stateFileExists : Bool) (st : LaunchState)
    (pathExists removeOk : String → Bool) : LoadResult :=
  if stateFileExists = false then ⟨none, [], none⟩
  else
    match st.connect with
    | some true =>
      let connectActs :=
        match st.host, st.port with
        | some h, some p => [CoreAction.connect h p]
        | _, _ => []
      match st.remove with
      | some removePath =>
        let idbFile := (splitext removePath).1
        let r := removeLoop idbFile siblingExts pathExists removeOk
        ⟨st.servers, connectActs ++ r.1, r.2⟩
      | none => ⟨st.servers, connectActs, none⟩
    | _ => ⟨st.servers, [], none⟩

/-- When every removal succeeds, the loop removes exactly the existing
files, in extension order, and no error escapes. -/
theorem removeLoop_all_ok (idbFile : String) (exts : List String)
    (pathExists : String → Bool) :
    removeLoop idbFile exts pathExists (fun _ => true)
      = ((exts.filter (fun e => pathExists (idbFile ++ e))).map
          (fun e => CoreAction.removeFile (idbFile ++ e)), none) := by
  induction exts with
  | nil => rfl
  | cons e rest ih =>
    simp only [removeLoop, List.filter_cons]
    by_cases h : pathExists (idbFile ++ e)
    · simp [h, ih]
    · simp [h, ih]

/-- C9 (amended): loading the launch state {connect: true, host: "h",
port: 1234, remove: "/tmp/sample.idb"} issues exactly one connect request
to ("h", 1234), before any deletion, and then attempts deletion of exactly
those of /tmp/sample.id0, .id1, .nam, .til, .seg that exist, in that
order; a missing file is skipped per-file and aborts nothing.  The connect
request is issued no matter how the removals fare; but an error raised by
an actual deletion is not caught (see the counterexample). -/
theorem reconnect_cleanup_behavior (pathExists : String → Bool) :
    (load_state true ⟨none, some true, some "h", some 1234,
        some "/tmp/sample.idb"⟩ pathExists (fun _ => true)).actions
      = CoreAction.connect "h" 1234 ::
          ((siblingExts.filter (fun e => pathExists ("/tmp/sample" ++ e))).map
            (fun e => CoreAction.removeFile ("/tmp/sample" ++ e)))
    ∧ (load_state true ⟨none, some true, some "h", some 1234,
        some "/tmp/sample.idb"⟩ pathExists (fun _ => true)).error = none
    ∧ (∀ removeOk, (load_state true ⟨none, some true, some "h", some 1234,
        some "/tmp/sample.idb"⟩ pathExists removeOk).actions.head?
          = some (CoreAction.connect "h" 1234)) := by
  have hsplit : splitext "/tmp/sample.idb" = ("/tmp/sample", ".idb") := by
    decide
  refine ⟨?_, ?_, ?_⟩
  · simp only [load_state, hsplit, removeLoop_all_ok]
    rfl
  · simp only [load_state, hsplit, removeLoop_all_ok]
    rfl
  · intro removeOk
    simp only [load_state, hsplit]
    rfl

/-- C9 falsified as stated: with all five sibling files present but the
removal of /tmp/sample.id0 failing, the error escapes load_state and none
of the remaining four deletions is attempted — the failure is not ignored
per-file.  (The connect request has already been issued.) -/
theorem reconnect_cleanup_counterexample :
    load_state true ⟨none, some true, some "h", some 1234,
        some "/tmp/sample.idb"⟩
        (fun _ => true) (fun f => !(f == "/tmp/sample.id0"))
      = ⟨none, [CoreAction.connect "h" 1234], some "/tmp/sample.id0"⟩
    ∧ CoreAction.removeFile "/tmp/sample.id1"
        ∉ (load_state true ⟨none, some true, some "h", some 1234,
            some "/tmp/sample.idb"⟩
            (fun _ => true) (fun f => !(f == "/tmp/sample.id0"))).actions := by
  decide

/-- Witness for C9's amended claim: with every sibling file present and
every removal succeeding, the connect request is followed by exactly the
five deletions. -/
theorem reconnect_cleanup_witness :
    (load_state true ⟨none, some true, some "h", some 1234,
        some "/tmp/sample.idb"⟩ (fun _ => true) (fun _ => true)).actions
      = [CoreAction.connect "h" 1234,
         CoreAction.removeFile "/tmp/sample.id0",
         CoreAction.removeFile "/tmp/sample.id1",
         CoreAction.removeFile "/tmp/sample.nam",
         CoreAction.removeFile "/tmp/sample.til",
         CoreAction.removeFile "/tmp/sample.seg"] := by
  have h := (reconnect_cleanup_behavior (fun _ => true)).1
  rw [h]
  decide

end IDArling
